import Mathlib

/-!
Verification development for the Nokia NSP alarm correlation core
(`alarm_cache.py`, `alarm_lifecycle.py`, `alarm_normalizer.py`).

The Python code is shallowly embedded: JSON-ish Python values become the
inductive `PyVal`; Python dicts become association lists preserving insertion
order (insert replaces in place, matching CPython dict update semantics);
raised exceptions become `Except Unit`; Python truthiness is `pyTruthy`.
-/

namespace NokiaAlarms

/-- Model of the Python/JSON values flowing through the alarm pipeline. -/
inductive PyVal where
  | none
  | bool (b : Bool)
  | int (n : Int)
  | str (s : String)
  | list (xs : List PyVal)
  | dict (kvs : List (String × PyVal))

mutual

/-- Structural decidable equality for `PyVal` (the derive handler does not
support the nested occurrences of `List`). -/
def PyVal.decEq : (a b : PyVal) → Decidable (a = b)
  | .none, .none => .isTrue rfl
  | .none, .bool _ => .isFalse nofun
  | .none, .int _ => .isFalse nofun
  | .none, .str _ => .isFalse nofun
  | .none, .list _ => .isFalse nofun
  | .none, .dict _ => .isFalse nofun
  | .bool _, .none => .isFalse nofun
  | .bool a, .bool b =>
      if h : a = b then .isTrue (by rw [h])
      else .isFalse (fun hh => h (by cases hh; rfl))
  | .bool _, .int _ => .isFalse nofun
  | .bool _, .str _ => .isFalse nofun
  | .bool _, .list _ => .isFalse nofun
  | .bool _, .dict _ => .isFalse nofun
  | .int _, .none => .isFalse nofun
  | .int _, .bool _ => .isFalse nofun
  | .int a, .int b =>
      if h : a = b then .isTrue (by rw [h])
      else .isFalse (fun hh => h (by cases hh; rfl))
  | .int _, .str _ => .isFalse nofun
  | .int _, .list _ => .isFalse nofun
  | .int _, .dict _ => .isFalse nofun
  | .str _, .none => .isFalse nofun
  | .str _, .bool _ => .isFalse nofun
  | .str _, .int _ => .isFalse nofun
  | .str a, .str b =>
      if h : a = b then .isTrue (by rw [h])
      else .isFalse (fun hh => h (by cases hh; rfl))
  | .str _, .list _ => .isFalse nofun
  | .str _, .dict _ => .isFalse nofun
  | .list _, .none => .isFalse nofun
  | .list _, .bool _ => .isFalse nofun
  | .list _, .int _ => .isFalse nofun
  | .list _, .str _ => .isFalse nofun
  | .list xs, .list ys =>
      match PyVal.decEqList xs ys with
      | .isTrue h => .isTrue (by rw [h])
      | .isFalse h => .isFalse (fun hh => h (by cases hh; rfl))
  | .list _, .dict _ => .isFalse nofun
  | .dict _, .none => .isFalse nofun
  | .dict _, .bool _ => .isFalse nofun
  | .dict _, .int _ => .isFalse nofun
  | .dict _, .str _ => .isFalse nofun
  | .dict _, .list _ => .isFalse nofun
  | .dict xs, .dict ys =>
      match PyVal.decEqKvs xs ys with
      | .isTrue h => .isTrue (by rw [h])
      | .isFalse h => .isFalse (fun hh => h (by cases hh; rfl))

/-- Decidable equality for lists of `PyVal`. -/
def PyVal.decEqList : (xs ys : List PyVal) → Decidable (xs = ys)
  | [], [] => .isTrue rfl
  | [], _ :: _ => .isFalse nofun
  | _ :: _, [] => .isFalse nofun
  | x :: xs, y :: ys =>
      match PyVal.decEq x y with
      | .isFalse h => .isFalse (fun hh => h (by cases hh; rfl))
      | .isTrue h1 =>
          match PyVal.decEqList xs ys with
          | .isTrue h2 => .isTrue (by rw [h1, h2])
          | .isFalse h => .isFalse (fun hh => h (by cases hh; rfl))

/-- Decidable equality for key-value lists of `PyVal`. -/
def PyVal.decEqKvs : (xs ys : List (String × PyVal)) → Decidable (xs = ys)
  | [], [] => .isTrue rfl
  | [], _ :: _ => .isFalse nofun
  | _ :: _, [] => .isFalse nofun
  | (k, x) :: xs, (l, y) :: ys =>
      if h0 : k = l then
        match PyVal.decEq x y with
        | .isFalse h => .isFalse (fun hh => h (by cases hh; rfl))
        | .isTrue h1 =>
            match PyVal.decEqKvs xs ys with
            | .isTrue h2 => .isTrue (by rw [h0, h1, h2])
            | .isFalse h => .isFalse (fun hh => h (by cases hh; rfl))
      else .isFalse (fun hh => h0 (by cases hh; rfl))

end

instance : DecidableEq PyVal := PyVal.decEq

/-- Python truthiness (`bool(v)`): None, 0, "", empty list/dict are falsy. -/
def pyTruthy : PyVal → Bool
  | .none => false
  | .bool b => b
  | .int n => decide (n ≠ 0)
  | .str s => decide (s ≠ "")
  | .list xs => !xs.isEmpty
  | .dict kvs => !kvs.isEmpty

/-- A Python dict with string keys, as an insertion-ordered association list. -/
abbrev PyDict := List (String × PyVal)

/-- First-match lookup in an association list (Python `k in d` / `d[k]`). -/
def dGet : PyDict → String → Option PyVal
  | [], _ => Option.none
  | (k, v) :: rest, key => if k = key then some v else dGet rest key

/-- Python `d.get(k)`: missing keys give `None`. -/
def pyGet (d : PyDict) (k : String) : PyVal :=
  (dGet d k).getD .none

/-- Python `d.get(k, default)`. -/
def dGetD (d : PyDict) (k : String) (dflt : PyVal) : PyVal :=
  (dGet d k).getD dflt

/-- Association list keyed by arbitrary Python values (cache/store maps). -/
abbrev PMap (α : Type) := List (PyVal × α)

/-- Lookup by key in a `PMap`. -/
def plookup {α : Type} : PMap α → PyVal → Option α
  | [], _ => Option.none
  | (k, v) :: rest, key => if k = key then some v else plookup rest key

/-- Python dict assignment `m[k] = v`: replace in place, else append. -/
def pinsert {α : Type} : PMap α → PyVal → α → PMap α
  | [], key, v => [(key, v)]
  | (k, w) :: rest, key, v =>
      if k = key then (k, v) :: rest else (k, w) :: pinsert rest key v

/-- Python `m.pop(k, None)`: drop the entry for `k` if present. -/
def perase {α : Type} : PMap α → PyVal → PMap α
  | [], _ => []
  | (k, w) :: rest, key =>
      if k = key then rest else (k, w) :: perase rest key

/-- Values of a `PMap` in insertion order (`list(m.values())`). -/
def pvalues {α : Type} (m : PMap α) : List α :=
  m.map Prod.snd

/-! ## `alarm_cache.AlarmCache` (value semantics)

The two category mappings of `AlarmCache`, with records embedded as values.
Object-identity (aliasing) questions are treated separately by `RefCache`
below. The `threading.Lock` serializes operations; each operation is modelled
as one atomic function on the state. -/

/-- State of `AlarmCache`: the two root-alarm mappings, `alarm_id → alarm`. -/
structure AlarmCache where
  active_power_issues : PMap PyDict
  active_los_alarms : PMap PyDict
deriving DecidableEq

/-- Dict comprehension `{a["alarm_id"]: a for a in alarms}`; `a["alarm_id"]`
raises `KeyError` (modelled as `.error`) when the key is absent, evaluated
before the assignment, so on error the cache field is untouched. -/
def buildById : List PyDict → PMap PyDict → Except Unit (PMap PyDict)
  | [], acc => .ok acc
  | a :: rest, acc =>
      match dGet a "alarm_id" with
      | Option.none => .error ()
      | some id => buildById rest (pinsert acc id a)

/-- `AlarmCache.load_power_issues`: bulk replace of the power mapping. -/
def AlarmCache.load_power_issues (c : AlarmCache) (alarms : List PyDict) :
    Except Unit AlarmCache :=
  (buildById alarms []).map fun m => { c with active_power_issues := m }

/-- `AlarmCache.load_los_alarms`: bulk replace of the LOS mapping. -/
def AlarmCache.load_los_alarms (c : AlarmCache) (alarms : List PyDict) :
    Except Unit AlarmCache :=
  (buildById alarms []).map fun m => { c with active_los_alarms := m }

/-- `AlarmCache.get_power_issues`: `list(self.active_power_issues.values())`. -/
def AlarmCache.get_power_issues (c : AlarmCache) : List PyDict :=
  pvalues c.active_power_issues

/-- `AlarmCache.get_los_alarms`: `list(self.active_los_alarms.values())`. -/
def AlarmCache.get_los_alarms (c : AlarmCache) : List PyDict :=
  pvalues c.active_los_alarms

/-- Power-issue category test from `add_or_update`:
`name == "Power Issue" and alarm.get("object_type") == "PHYSICALCONNECTION"`. -/
def isPowerIssue (alarm : PyDict) : Bool :=
  decide (pyGet alarm "alarm_name" = .str "Power Issue") &&
    decide (pyGet alarm "object_type" = .str "PHYSICALCONNECTION")

/-- LOS category test from `add_or_update`:
`name == "Loss of signal - OCH" and severity in ("CRITICAL", "MAJOR")`. -/
def isLosAlarm (alarm : PyDict) : Bool :=
  decide (pyGet alarm "alarm_name" = .str "Loss of signal - OCH") &&
    (decide (pyGet alarm "severity" = .str "CRITICAL") ||
      decide (pyGet alarm "severity" = .str "MAJOR"))

/-- `AlarmCache.add_or_update`: `alarm["alarm_id"]` raises `KeyError` (before
any mutation) when the key is absent; otherwise each matching category mapping
gets the record inserted/overwritten at `alarm_id`. -/
def AlarmCache.add_or_update (c : AlarmCache) (alarm : PyDict) :
    Except Unit AlarmCache :=
  match dGet alarm "alarm_id" with
  | Option.none => .error ()
  | some alarm_id =>
      let c1 :=
        if isPowerIssue alarm then
          { c with active_power_issues := pinsert c.active_power_issues alarm_id alarm }
        else c
      let c2 :=
        if isLosAlarm alarm then
          { c1 with active_los_alarms := pinsert c1.active_los_alarms alarm_id alarm }
        else c1
      .ok c2

/-- `AlarmCache.remove`: pop `alarm_id` from both mappings (no-op if absent). -/
def AlarmCache.remove (c : AlarmCache) (alarm_id : PyVal) : AlarmCache :=
  { active_power_issues := perase c.active_power_issues alarm_id
    active_los_alarms := perase c.active_los_alarms alarm_id }

/-! ## `AlarmCache` with Python object identity (`RefCache`)

`get_power_issues` returns `list(self.active_power_issues.values())`: a fresh
list whose elements are references to the very dict objects held by the cache.
To reason about mutation of those shared objects, `RefCache` stores heap
addresses and records live in a heap `Nat → PyDict`; mutating a record object
in place is a heap update that leaves every address map untouched. -/

/-- The two cache mappings with records as heap addresses. -/
structure RefCache where
  active_power_issues : PMap Nat
  active_los_alarms : PMap Nat
deriving DecidableEq

/-- `get_power_issues` under reference semantics: a fresh list holding the
same object references as the internal mapping. -/
def RefCache.get_power_issues (c : RefCache) : List Nat :=
  pvalues c.active_power_issues

/-- `get_los_alarms` under reference semantics. -/
def RefCache.get_los_alarms (c : RefCache) : List Nat :=
  pvalues c.active_los_alarms

/-- `remove` under reference semantics: drops references, never touches the
heap. -/
def RefCache.remove (c : RefCache) (alarm_id : PyVal) : RefCache :=
  { active_power_issues := perase c.active_power_issues alarm_id
    active_los_alarms := perase c.active_los_alarms alarm_id }

/-- Dereference a list of record references: the record values a caller
observes when reading a snapshot list. -/
def readRecords (heap : Nat → PyDict) (addrs : List Nat) : List PyDict :=
  addrs.map heap

/-- In-place mutation of the dict object at address `a` (e.g. a caller doing
`rec["severity"] = "CLEAR"` on a record obtained from a snapshot). -/
def heapWrite (heap : Nat → PyDict) (a : Nat) (v : PyDict) : Nat → PyDict :=
  fun x => if x = a then v else heap x

/-! ## `alarm_lifecycle.handle_alarm_lifecycle`

The handler drives one event against the durable store (psycopg2 transaction
opened by `get_conn`, committed on normal exit, rolled back and re-raised on
any exception) and the cache. The store is the `active_alarms` table keyed by
`alarm_id` plus the append-only `alarm_history` table. `LcEnv` injects
store-side failures (a failing `cur.execute`) so the rollback paths are part
of the model; `LcResult.ok = false` means the exception propagated to the
caller. The trace lists the store and cache calls in the order issued. -/

/-- Durable store: `active_alarms` (alarm_id → jsonb payload) and
`alarm_history` (appended `(alarm_id, payload)` rows). -/
structure Store where
  active : PMap PyVal
  history : List (PyVal × PyVal)
deriving DecidableEq

/-- Combined durable store plus in-memory cache state. -/
structure SysState where
  store : Store
  cache : AlarmCache
deriving DecidableEq

/-- One store or cache call issued by the lifecycle handler. -/
inductive LcOp where
  | cacheRemove (id : PyVal)
  | cacheUpsert (alarm : PyDict)
  | dbDeleteActive (id : PyVal)
  | dbInsertHistory (id : PyVal) (payload : PyVal)
  | dbUpsertActive (id : PyVal) (alarm : PyDict)
deriving DecidableEq

/-- Failure injection for the durable store: which `cur.execute` calls raise. -/
structure LcEnv where
  deleteFails : Bool
  historyFails : Bool
  upsertFails : Bool
deriving DecidableEq

/-- Result of one handler invocation: whether it returned normally, the final
store/cache state, and the ordered trace of issued calls. -/
structure LcResult where
  ok : Bool
  state : SysState
  trace : List LcOp
deriving DecidableEq

/-- `json.dumps(alarm)` stored into the jsonb column: the alarm dict itself. -/
def dumpAlarm (alarm : PyDict) : PyVal :=
  .dict alarm

/-- The CLEAR branch of `handle_alarm_lifecycle`: `alarm_cache.remove` first,
then `DELETE ... RETURNING alarm`, then — only when the fetched row is truthy
and its payload is truthy (`if row and row[0]`) — one history insert. A
failing store call rolls the transaction back (store unchanged) but the cache
eviction already issued stays. -/
def clearBranch (env : LcEnv) (alarm_id : PyVal) (s : SysState) : LcResult :=
  let cache1 := s.cache.remove alarm_id
  if env.deleteFails then
    ⟨false, ⟨s.store, cache1⟩, [.cacheRemove alarm_id, .dbDeleteActive alarm_id]⟩
  else
    let row := plookup s.store.active alarm_id
    let active1 := perase s.store.active alarm_id
    match row with
    | some payload =>
        if pyTruthy payload then
          if env.historyFails then
            ⟨false, ⟨s.store, cache1⟩,
              [.cacheRemove alarm_id, .dbDeleteActive alarm_id,
                .dbInsertHistory alarm_id payload]⟩
          else
            ⟨true, ⟨⟨active1, s.store.history ++ [(alarm_id, payload)]⟩, cache1⟩,
              [.cacheRemove alarm_id, .dbDeleteActive alarm_id,
                .dbInsertHistory alarm_id payload]⟩
        else
          ⟨true, ⟨⟨active1, s.store.history⟩, cache1⟩,
            [.cacheRemove alarm_id, .dbDeleteActive alarm_id]⟩
    | Option.none =>
        ⟨true, ⟨⟨active1, s.store.history⟩, cache1⟩,
          [.cacheRemove alarm_id, .dbDeleteActive alarm_id]⟩

/-- The create / non-CLEAR-change branch: upsert the active row first, then
`alarm_cache.add_or_update` only after the store write succeeded. An exception
from either call rolls the transaction back and propagates. -/
def upsertBranch (env : LcEnv) (alarm : PyDict) (alarm_id : PyVal) (s : SysState) :
    LcResult :=
  if env.upsertFails then
    ⟨false, s, [.dbUpsertActive alarm_id alarm]⟩
  else
    let store1 : Store := ⟨pinsert s.store.active alarm_id (dumpAlarm alarm), s.store.history⟩
    match s.cache.add_or_update alarm with
    | .ok c1 => ⟨true, ⟨store1, c1⟩, [.dbUpsertActive alarm_id alarm, .cacheUpsert alarm]⟩
    | .error _ => ⟨false, ⟨s.store, s.cache⟩, [.dbUpsertActive alarm_id alarm]⟩

/-- `handle_alarm_lifecycle(alarm, alarm_cache)` from `alarm_lifecycle.py`:
guards, the ignored `alarm-delete` kind, the CLEAR branch and the
create/change branch, in source order. -/
def handle_alarm_lifecycle (env : LcEnv) (alarm : PyDict) (s : SysState) : LcResult :=
  let alarm_id := pyGet alarm "alarm_id"
  let event_type := pyGet alarm "event_type"
  let severity := pyGet alarm "severity"
  if pyTruthy alarm_id = false ∨ pyTruthy event_type = false then ⟨true, s, []⟩
  else if event_type = .str "alarm-delete" then ⟨true, s, []⟩
  else if event_type = .str "alarm-change" ∧ severity = .str "CLEAR" then
    clearBranch env alarm_id s
  else if event_type ≠ .str "alarm-create" ∧ event_type ≠ .str "alarm-change" then
    ⟨true, s, []⟩
  else if pyTruthy (pyGet alarm "alarm_name") = false ∨
      pyTruthy (pyGet alarm "ne_name") = false then
    ⟨true, s, []⟩
  else upsertBranch env alarm alarm_id s

/-! ## `alarm_normalizer` time conversion

`epoch_ms_to_utc` / `utc_ms_to_local_iso` accept an epoch-ms integer, a
numeric string, or a dict carrying one of `value` / `milliseconds` /
`seconds`. Modelling decisions: arithmetic is exact (CPython's `ts / 1000`
float division agrees with the exact value to below one microsecond for every
realistic epoch value); `str.isdigit` is modelled for ASCII digits;
`pytz.timezone("Asia/Dhaka")` is modelled as the fixed offset +06:00, its
value at every instant these claims touch (Bangladesh has used UTC+6 since
1951 apart from the 2009 DST experiment). `.error` models an uncaught
exception (e.g. the `TypeError` from `ts.get("seconds", 0) * 1000` when
`seconds` is `None`); the `try/except` around the datetime conversion itself
maps out-of-range years to `None`. -/

/-- Python `s.isdigit()` (ASCII): nonempty and all digits. -/
def pyIsDigit (s : String) : Bool :=
  !s.isEmpty && s.toList.all Char.isDigit

/-- Python `int(s)` for an all-digit string. -/
def pyStrToInt (s : String) : Int :=
  Int.ofNat (s.toList.foldl (fun n c => n * 10 + (c.toNat - 48)) 0)

/-- Python `x * 1000` on a dynamically-typed value: ints and bools multiply,
strings and lists replicate, anything else raises `TypeError`. -/
def pyMul1000 : PyVal → Except Unit PyVal
  | .int n => .ok (.int (n * 1000))
  | .bool b => .ok (.int (if b then 1000 else 0))
  | .str s => .ok (.str (String.join (List.replicate 1000 s)))
  | .list xs => .ok (.list (List.flatten (List.replicate 1000 xs)))
  | _ => .error ()

/-- The dict stage of both converters:
`ts.get("value") or ts.get("milliseconds") or (ts.get("seconds", 0) * 1000)`,
with Python's lazy left-to-right `or`. -/
def tsFromDict (d : PyDict) : Except Unit PyVal :=
  let v := pyGet d "value"
  if pyTruthy v then .ok v
  else
    let m := pyGet d "milliseconds"
    if pyTruthy m then .ok m
    else pyMul1000 (dGetD d "seconds" (.int 0))

/-- The string / isinstance stage shared by both converters: a numeric string
converts, a non-numeric string gives `None`, int-like values pass (`bool`
passes `isinstance(ts, int)` in Python), anything else gives `None`. The
resulting integer is the epoch-milliseconds value handed to the datetime
conversion. -/
def tsFinish : PyVal → Option Int
  | .str s => if pyIsDigit s then some (pyStrToInt s) else Option.none
  | .int n => some n
  | .bool b => some (if b then 1 else 0)
  | _ => Option.none

/-- Shared front end of both converters: `None` passes through, a dict is
unwrapped by `tsFromDict`, then `tsFinish` runs; `ok none` is the silent
`return None`. -/
def tsNormalize : PyVal → Except Unit (Option Int)
  | .none => .ok Option.none
  | .dict d => (tsFromDict d).map tsFinish
  | v => .ok (tsFinish v)

/-- Zero-padded two-digit decimal. -/
def pad2 (n : Nat) : String :=
  if n < 10 then "0" ++ toString n else toString n

/-- Zero-padded four-digit decimal (years). -/
def pad4 (n : Nat) : String :=
  if n < 10 then "000" ++ toString n
  else if n < 100 then "00" ++ toString n
  else if n < 1000 then "0" ++ toString n
  else toString n

/-- Zero-padded six-digit decimal (microseconds). -/
def pad6 (n : Nat) : String :=
  if n < 10 then "00000" ++ toString n
  else if n < 100 then "0000" ++ toString n
  else if n < 1000 then "000" ++ toString n
  else if n < 10000 then "00" ++ toString n
  else if n < 100000 then "0" ++ toString n
  else toString n

/-- Proleptic-Gregorian date of a day count from 1970-01-01 (the standard
era-based civil-from-days computation used by datetime arithmetic). -/
def civilFromDays (z0 : Int) : Int × Nat × Nat :=
  let z := z0 + 719468
  let era : Int := Int.fdiv z 146097
  let doe : Nat := (z - era * 146097).toNat
  let yoe : Nat := (doe - doe / 1460 + doe / 36524 - doe / 146096) / 365
  let y : Int := (yoe : Int) + era * 400
  let doy : Nat := doe - (365 * yoe + yoe / 4 - yoe / 100)
  let mp : Nat := (5 * doy + 2) / 153
  let d : Nat := doy - (153 * mp + 2) / 5 + 1
  let m : Nat := if mp < 10 then mp + 3 else mp - 9
  (if m ≤ 2 then y + 1 else y, m, d)

/-- `datetime.utcfromtimestamp(ms / 1000).isoformat()`: the naive UTC
datetime in ISO form, `none` when the year falls outside `datetime`'s
1..9999 range (the raised error is caught by the surrounding `except`).
`isoformat` appends `.ffffff` microseconds only when they are nonzero. -/
def isoDateTimeOfMs (ms : Int) : Option String :=
  let secs := Int.fdiv ms 1000
  let msRem := (Int.fmod ms 1000).toNat
  let sod := (Int.fmod secs 86400).toNat
  let c := civilFromDays (Int.fdiv secs 86400)
  if c.1 < 1 ∨ c.1 > 9999 then Option.none
  else
    some (pad4 c.1.toNat ++ "-" ++ pad2 c.2.1 ++ "-" ++ pad2 c.2.2 ++ "T" ++
      pad2 (sod / 3600) ++ ":" ++ pad2 (sod % 3600 / 60) ++ ":" ++ pad2 (sod % 60) ++
      (if msRem = 0 then "" else "." ++ pad6 (msRem * 1000)))

/-- `alarm_normalizer.epoch_ms_to_utc`. -/
def epoch_ms_to_utc (ts : PyVal) : Except Unit (Option String) :=
  (tsNormalize ts).map fun o =>
    o.bind fun n => (isoDateTimeOfMs n).map (fun s => s ++ "Z")

/-- Asia/Dhaka offset from UTC in milliseconds (+06:00). -/
def dhakaOffsetMs : Int := 21600000

/-- `alarm_normalizer.utc_ms_to_local_iso`: `fromtimestamp(ts / 1000,
tz=timezone.utc).astimezone(Asia/Dhaka).isoformat()`; both the UTC instant
and the shifted local datetime must be in `datetime`'s year range, and the
local ISO string carries the `+06:00` offset. -/
def utc_ms_to_local_iso (ts : PyVal) : Except Unit (Option String) :=
  (tsNormalize ts).map fun o =>
    o.bind fun n =>
      match isoDateTimeOfMs n with
      | Option.none => Option.none
      | some _ => (isoDateTimeOfMs (n + dhakaOffsetMs)).map (fun s => s ++ "+06:00")

/-! ## `alarm_normalizer.normalize_alarm`

The external collaborators (`map_severity`, `should_drop_alarm`,
`parse_affected_object` — imported from modules outside this repository) are
parameters bundled in `Collab`; `normalize_alarm` is proved for every choice
of them. `.error` models a propagated exception, e.g. the `AttributeError`
from calling `.get` / `.items` on a non-dict envelope member. -/

/-- Keyword arguments handed to the external `should_drop_alarm`. -/
structure DropArgs where
  alarm_name : PyVal
  specific_problem : PyVal
  probable_cause : PyVal
  ne_name : PyVal
  ne_id : PyVal
  source : PyVal
  object_type : PyVal
  severity : PyVal
  affected_object_name : PyVal
  first_detected : PyVal
  active_power_issues : List PyDict
  active_los_alarms : List PyDict

/-- The three external collaborator functions used by `normalize_alarm`. -/
structure Collab where
  map_severity : PyVal → PyVal → PyVal
  should_drop_alarm : DropArgs → Bool
  parse_affected_object : PyVal → PyVal

/-- Python `v.get(k, default)` on a dynamic value: `AttributeError` (modelled
as `.error`) when `v` is not a dict. -/
def pyDotGet (v : PyVal) (k : String) (dflt : PyVal) : Except Unit PyVal :=
  match v with
  | .dict d => .ok (dGetD d k dflt)
  | _ => .error ()

/-- Python `v.items()` on a dynamic value: `AttributeError` unless a dict. -/
def pyItemsOf : PyVal → Except Unit (List (String × PyVal))
  | .dict d => .ok d
  | _ => .error ()

/-- The extraction loop of `normalize_alarm`: the first key starting with
`nsp-fault:` gives the event type (tag with `nsp-fault:` removed) and the
alarm payload. -/
def findFault : List (String × PyVal) → Option (String × PyVal)
  | [] => Option.none
  | (k, v) :: rest =>
      if k.startsWith "nsp-fault:" then some (k.replace "nsp-fault:" "", v)
      else findFault rest

/-- Embed a converted optional timestamp back as a Python value. -/
def optStrToPy : Option String → PyVal
  | Option.none => .none
  | some s => .str s

/-- Body of `normalize_alarm` after a well-formed alarm payload was found:
severity mapping, the two cache snapshots, the drop decision, and the
canonical output record with the source's exact keys. -/
def normalizeCore (fns : Collab) (event_type : String) (notif : List (String × PyVal))
    (alarm : PyDict) (cache : AlarmCache) : Except Unit (Option PyDict) := do
  let alarm_name := pyGet alarm "alarmName"
  let specific_problem := pyGet alarm "specificProblem"
  let probable_cause := pyGet alarm "probableCause"
  let ne_name := pyGet alarm "neName"
  let ne_id := pyGet alarm "neId"
  let source := pyGet alarm "sourceType"
  let object_type := pyGet alarm "affectedObjectType"
  let severity_raw := pyGet alarm "severity"
  let severity := fns.map_severity severity_raw specific_problem
  let active_power_issues := cache.get_power_issues
  let active_los_alarms := cache.get_los_alarms
  let fd_utc ← epoch_ms_to_utc (pyGet alarm "firstTimeDetected")
  if fns.should_drop_alarm ⟨alarm_name, specific_problem, probable_cause, ne_name,
      ne_id, source, object_type, severity, pyGet alarm "affectedObjectName",
      optStrToPy fd_utc, active_power_issues, active_los_alarms⟩ then
    return Option.none
  else do
    let first_detected ← utc_ms_to_local_iso (pyGet alarm "firstTimeDetected")
    let last_detected ← utc_ms_to_local_iso (pyGet alarm "lastTimeDetected")
    return some [
      ("event_type", .str event_type),
      ("event_time", pyGet notif "eventTime"),
      ("alarm_id", pyGet alarm "objectId"),
      ("alarm_name", alarm_name),
      ("specific_problem", specific_problem),
      ("probable_cause", probable_cause),
      ("ne_name", ne_name),
      ("ne_id", ne_id),
      ("source", source),
      ("severity_raw", severity_raw),
      ("severity", severity),
      ("affected_object", pyGet alarm "affectedObject"),
      ("affected_object_name", pyGet alarm "affectedObjectName"),
      ("object_type", object_type),
      ("object_details", fns.parse_affected_object (pyGet alarm "affectedObject")),
      ("first_detected", optStrToPy first_detected),
      ("last_detected", optStrToPy last_detected),
      ("acknowledged", dGetD alarm "acknowledged" (.bool false)),
      ("service_affecting", pyGet alarm "serviceAffecting"),
      ("implicitly_cleared", dGetD alarm "implicitlyCleared" (.bool false))]

/-- The envelope traversal
`event.get("data", {}).get("ietf-restconf:notification", {}).items()`. -/
def envNotifItems (event : PyVal) : Except Unit (List (String × PyVal)) := do
  let dataV ← pyDotGet event "data" (.dict [])
  let notifV ← pyDotGet dataV "ietf-restconf:notification" (.dict [])
  pyItemsOf notifV

/-- Combined extraction plus well-formedness guard: the alarm payload that
survives `not alarm or not isinstance(alarm, dict)`, with its event type. -/
def wellFormedFault (notif : List (String × PyVal)) : Option (String × PyDict) :=
  match findFault notif with
  | Option.none => Option.none
  | some (event_type, v) =>
      if pyTruthy v then
        match v with
        | .dict d => some (event_type, d)
        | _ => Option.none
      else Option.none

/-- `alarm_normalizer.normalize_alarm(event, alarm_cache)`: envelope
traversal, the `nsp-fault:` extraction loop, the
`not alarm or not isinstance(alarm, dict)` guard, then `normalizeCore`. -/
def normalize_alarm (fns : Collab) (event : PyVal) (cache : AlarmCache) :
    Except Unit (Option PyDict) := do
  let notif ← envNotifItems event
  match wellFormedFault notif with
  | Option.none => return Option.none
  | some (event_type, alarm) => normalizeCore fns event_type notif alarm cache

/-! ## Cache operation sequences (for the category-membership invariant) -/

/-- One mutating call against `AlarmCache`. -/
inductive CacheOp where
  | loadPower (alarms : List PyDict)
  | loadLos (alarms : List PyDict)
  | upsert (alarm : PyDict)
  | evict (id : PyVal)

/-- Apply one cache call; a raised `KeyError` (load with a record missing
`alarm_id`, or `add_or_update` on such a record) leaves the cache unchanged,
since it is raised before the corresponding assignment. -/
def applyCacheOp (c : AlarmCache) : CacheOp → AlarmCache
  | .loadPower alarms =>
      match c.load_power_issues alarms with
      | .ok c1 => c1
      | .error _ => c
  | .loadLos alarms =>
      match c.load_los_alarms alarms with
      | .ok c1 => c1
      | .error _ => c
  | .upsert alarm =>
      match c.add_or_update alarm with
      | .ok c1 => c1
      | .error _ => c
  | .evict id => c.remove id

/-- Run a sequence of cache calls. -/
def runCacheOps (c : AlarmCache) (ops : List CacheOp) : AlarmCache :=
  ops.foldl applyCacheOp c

/-- The category-membership invariant: every stored power-issue record
satisfies the power-issue test and every stored LOS record the LOS test. -/
def CacheInv (c : AlarmCache) : Prop :=
  (∀ kv ∈ c.active_power_issues, isPowerIssue kv.2 = true) ∧
    (∀ kv ∈ c.active_los_alarms, isLosAlarm kv.2 = true)

/-- Side condition on a cache call: bulk loads feed only records matching the
loaded category (which the two startup SQL queries in `alarm_lifecycle.py`
filter for); upserts and evictions are unconstrained. -/
def GoodOp : CacheOp → Prop
  | .loadPower alarms => ∀ a ∈ alarms, isPowerIssue a = true
  | .loadLos alarms => ∀ a ∈ alarms, isLosAlarm a = true
  | .upsert _ => True
  | .evict _ => True

/-- Decidable equality for `Except`, so concrete runs can be settled by
`decide`. -/
instance exceptDecEq {e a : Type} [DecidableEq e] [DecidableEq a] :
    DecidableEq (Except e a)
  | .ok x, .ok y =>
      if h : x = y then .isTrue (by rw [h])
      else .isFalse (fun hh => h (by cases hh; rfl))
  | .ok _, .error _ => .isFalse nofun
  | .error _, .ok _ => .isFalse nofun
  | .error x, .error y =>
      if h : x = y then .isTrue (by rw [h])
      else .isFalse (fun hh => h (by cases hh; rfl))

/-! ## Helper lemmas -/

/-- A truthy `d.get(k)` implies the key is present with that value. -/
theorem dGet_of_truthy {d : PyDict} {k : String}
    (h : pyTruthy (pyGet d k) = true) : dGet d k = some (pyGet d k) := by
  cases hd : dGet d k with
  | none => rw [pyGet, hd] at h; simp [Option.getD, pyTruthy] at h
  | some v => rw [pyGet, hd]; rfl

/-- Membership after a `PMap` insert: the new entry or an old one. -/
theorem mem_pinsert {α : Type} {m : PMap α} {k : PyVal} {v : α} {kv : PyVal × α}
    (h : kv ∈ pinsert m k v) : kv = (k, v) ∨ kv ∈ m := by
  induction m with
  | nil => simpa [pinsert] using h
  | cons hd tl ih =>
      obtain ⟨k1, w⟩ := hd
      rw [pinsert] at h
      split at h
      · rename_i heq
        rcases List.mem_cons.mp h with h1 | h1
        · subst heq; left; exact h1
        · right; exact List.mem_cons_of_mem _ h1
      · rcases List.mem_cons.mp h with h1 | h1
        · right; rw [h1]; exact List.mem_cons_self _ _
        · rcases ih h1 with h2 | h2
          · left; exact h2
          · right; exact List.mem_cons_of_mem _ h2

/-- Membership survives `perase` only from the original map. -/
theorem mem_perase {α : Type} {m : PMap α} {k : PyVal} {kv : PyVal × α}
    (h : kv ∈ perase m k) : kv ∈ m := by
  induction m with
  | nil => simp [perase] at h
  | cons hd tl ih =>
      obtain ⟨k1, w⟩ := hd
      rw [perase] at h
      split at h
      · exact List.mem_cons_of_mem _ h
      · rcases List.mem_cons.mp h with h1 | h1
        · rw [h1]; exact List.mem_cons_self _ _
        · exact List.mem_cons_of_mem _ (ih h1)

/-- Entries of a successfully built id-keyed map are input records (or came
from the accumulator). -/
theorem buildById_mem {alarms : List PyDict} :
    ∀ {acc m : PMap PyDict} {kv : PyVal × PyDict},
      buildById alarms acc = .ok m → kv ∈ m → kv.2 ∈ alarms ∨ kv ∈ acc := by
  induction alarms with
  | nil =>
      intro acc m kv h hm
      rw [buildById] at h
      cases h
      exact Or.inr hm
  | cons a rest ih =>
      intro acc m kv h hm
      rw [buildById] at h
      split at h
      · exact absurd h (by simp)
      · rcases ih h hm with h1 | h1
        · exact Or.inl (List.mem_cons_of_mem _ h1)
        · rcases mem_pinsert h1 with h2 | h2
          · left; rw [h2]; exact List.mem_cons_self _ _
          · exact Or.inr h2

/-- `add_or_update` produces a result exactly when `alarm_id` is present. -/
theorem add_or_update_ok_of_truthy {c : AlarmCache} {alarm : PyDict}
    (h : pyTruthy (pyGet alarm "alarm_id") = true) :
    ∃ c1, c.add_or_update alarm = .ok c1 := by
  rw [AlarmCache.add_or_update, dGet_of_truthy h]
  exact ⟨_, rfl⟩

/-- `add_or_update` preserves the category-membership invariant. -/
theorem add_or_update_inv {c c1 : AlarmCache} {alarm : PyDict}
    (h : c.add_or_update alarm = .ok c1) (hc : CacheInv c) : CacheInv c1 := by
  rw [AlarmCache.add_or_update] at h
  split at h
  · exact absurd h (by simp)
  · cases h
    constructor
    · intro kv hkv
      by_cases hl : isLosAlarm alarm = true <;>
        by_cases hp : isPowerIssue alarm = true <;>
          simp only [hl, hp, if_true, if_false, if_pos, if_neg] at hkv <;>
            simp only [Bool.not_eq_true] at hl hp <;>
              first
              | exact hc.1 kv hkv
              | (rcases mem_pinsert hkv with h2 | h2
                 · rw [h2]; exact hp
                 · exact hc.1 _ h2)
    · intro kv hkv
      by_cases hl : isLosAlarm alarm = true <;>
        by_cases hp : isPowerIssue alarm = true <;>
          simp only [hl, hp, if_true, if_false, if_pos, if_neg] at hkv <;>
            simp only [Bool.not_eq_true] at hl hp <;>
              first
              | exact hc.2 kv hkv
              | (rcases mem_pinsert hkv with h2 | h2
                 · rw [h2]; exact hl
                 · exact hc.2 _ h2)

/-- A successful power load keeps the invariant when all loaded records match
the power predicate. -/
theorem load_power_inv {c c1 : AlarmCache} {alarms : List PyDict}
    (h : c.load_power_issues alarms = .ok c1) (hc : CacheInv c)
    (hg : ∀ a ∈ alarms, isPowerIssue a = true) : CacheInv c1 := by
  rw [AlarmCache.load_power_issues] at h
  cases hb : buildById alarms [] with
  | error e => rw [hb] at h; exact absurd h (by simp [Except.map])
  | ok m =>
      rw [hb] at h
      simp only [Except.map] at h
      cases h
      constructor
      · intro kv hkv
        rcases buildById_mem hb hkv with h1 | h1
        · exact hg _ h1
        · simp at h1
      · exact hc.2

/-- A successful LOS load keeps the invariant when all loaded records match
the LOS predicate. -/
theorem load_los_inv {c c1 : AlarmCache} {alarms : List PyDict}
    (h : c.load_los_alarms alarms = .ok c1) (hc : CacheInv c)
    (hg : ∀ a ∈ alarms, isLosAlarm a = true) : CacheInv c1 := by
  rw [AlarmCache.load_los_alarms] at h
  cases hb : buildById alarms [] with
  | error e => rw [hb] at h; exact absurd h (by simp [Except.map])
  | ok m =>
      rw [hb] at h
      simp only [Except.map] at h
      cases h
      constructor
      · exact hc.1
      · intro kv hkv
        rcases buildById_mem hb hkv with h1 | h1
        · exact hg _ h1
        · simp at h1

/-- Every single cache call preserves the invariant under its `GoodOp` side
condition. -/
theorem applyCacheOp_inv (c : AlarmCache) (op : CacheOp) (hc : CacheInv c)
    (hop : GoodOp op) : CacheInv (applyCacheOp c op) := by
  cases op with
  | loadPower alarms =>
      rw [applyCacheOp]
      cases hb : c.load_power_issues alarms with
      | ok c1 => exact load_power_inv hb hc hop
      | error e => exact hc
  | loadLos alarms =>
      rw [applyCacheOp]
      cases hb : c.load_los_alarms alarms with
      | ok c1 => exact load_los_inv hb hc hop
      | error e => exact hc
  | upsert alarm =>
      rw [applyCacheOp]
      cases hb : c.add_or_update alarm with
      | ok c1 => exact add_or_update_inv hb hc
      | error e => exact hc
  | evict id =>
      constructor
      · intro kv hkv; exact hc.1 _ (mem_perase hkv)
      · intro kv hkv; exact hc.2 _ (mem_perase hkv)

/-! ## Claim C1 — snapshot independence -/

/-- C1: refuted on the code. `get_power_issues` returns
`list(self.active_power_issues.values())`: the list container is fresh, but
its elements are the very dict objects stored in the cache. Cache holding one
power-issue record at address 0: the snapshot returns that address, and after
the caller mutates the record object in place (here: severity set to CLEAR),
the record sequence observed by every subsequent snapshot has changed — the
returned sequence aliases internal storage. -/
theorem snapshot_aliases_internal_storage :
    RefCache.get_power_issues ⟨[(.str "A1", 0)], []⟩ = [0] ∧
      readRecords
          (heapWrite (fun _ => [("alarm_name", .str "Power Issue"), ("severity", .str "MAJOR")])
            0 [("alarm_name", .str "Power Issue"), ("severity", .str "CLEAR")])
          (RefCache.get_power_issues ⟨[(.str "A1", 0)], []⟩) ≠
        readRecords (fun _ => [("alarm_name", .str "Power Issue"), ("severity", .str "MAJOR")])
          (RefCache.get_power_issues ⟨[(.str "A1", 0)], []⟩) := by
  exact ⟨rfl, by decide⟩

/-! ## Claim C4 — category-membership invariant -/

/-- C4 counterexample: the claim quantifies over load as well, but
`load_power_issues` stores whatever records it is given without evaluating
the category predicate; loading a record that violates the power-issue
predicate leaves the cache holding a violating record. -/
theorem cache_category_invariant_cx :
    (runCacheOps ⟨[], []⟩
        [CacheOp.loadPower [[("alarm_id", .str "X"), ("alarm_name", .str "Other")]]]
      ).active_power_issues
        = [(.str "X", [("alarm_id", .str "X"), ("alarm_name", .str "Other")])] ∧
      isPowerIssue [("alarm_id", .str "X"), ("alarm_name", .str "Other")] = false :=
  ⟨rfl, rfl⟩

/-- C4 (amended): after any sequence of cache operations in which every bulk
load feeds only records satisfying the loaded category's predicate (which the
two startup SQL queries guarantee), starting from a state satisfying the
invariant, every record stored in the power-issue mapping satisfies the
power-issue predicate and every record in the LOS mapping the LOS predicate;
`add_or_update` and `remove` need no side condition. -/
theorem cache_category_invariant (c : AlarmCache) (ops : List CacheOp)
    (hc : CacheInv c) (hops : ∀ op ∈ ops, GoodOp op) :
    CacheInv (runCacheOps c ops) := by
  induction ops generalizing c with
  | nil => exact hc
  | cons op rest ih =>
      rw [runCacheOps, List.foldl_cons]
      exact ih _ (applyCacheOp_inv _ _ hc (hops op (List.mem_cons_self _ _)))
        (fun o ho => hops o (List.mem_cons_of_mem _ ho))

/-- C4 witness: a concrete good run — load one matching power record, upsert
one LOS record, evict an id — ends in an invariant-satisfying state. -/
theorem cache_category_invariant_witness :
    CacheInv (runCacheOps ⟨[], []⟩
      [CacheOp.loadPower [[("alarm_id", .str "P1"), ("alarm_name", .str "Power Issue"),
          ("object_type", .str "PHYSICALCONNECTION")]],
        CacheOp.upsert [("alarm_id", .str "L1"), ("alarm_name", .str "Loss of signal - OCH"),
          ("severity", .str "MAJOR")],
        CacheOp.evict (.str "P1")]) :=
  cache_category_invariant ⟨[], []⟩ _ (by constructor <;> simp) (by
    intro op hop
    simp only [List.mem_cons, List.not_mem_nil, or_false] at hop
    rcases hop with rfl | rfl | rfl
    · intro a ha
      rcases List.mem_singleton.mp ha with rfl
      rfl
    · trivial
    · trivial)

/-! ## Claim C9 — upsert never removes -/

/-- C9: `add_or_update` leaves a category's mapping unchanged whenever the
record fails that category's predicate; in particular a previously cached
entry under the same `alarm_id` stays (stale) until an evict. -/
theorem add_or_update_nonmatching_unchanged (c c1 : AlarmCache) (alarm : PyDict)
    (h : c.add_or_update alarm = .ok c1) :
    (isPowerIssue alarm = false → c1.active_power_issues = c.active_power_issues) ∧
      (isLosAlarm alarm = false → c1.active_los_alarms = c.active_los_alarms) := by
  rw [AlarmCache.add_or_update] at h
  split at h
  · exact absurd h (by simp)
  · cases h
    constructor
    · intro hp
      simp [hp]
      split <;> rfl
    · intro hl
      simp [hl]
      split <;> rfl

/-- C9 witness: upserting a LOS-only record over a cache holding a stale
power entry under the same id leaves the power mapping (and its stale entry)
untouched. -/
theorem add_or_update_nonmatching_unchanged_witness :
    (AlarmCache.mk
        [(.str "A1", [("alarm_id", .str "A1"), ("alarm_name", .str "Power Issue"),
            ("object_type", .str "PHYSICALCONNECTION")])]
        [(.str "A1", [("alarm_id", .str "A1"), ("alarm_name", .str "Loss of signal - OCH"),
            ("severity", .str "MAJOR")])]).active_power_issues =
      (AlarmCache.mk
        [(.str "A1", [("alarm_id", .str "A1"), ("alarm_name", .str "Power Issue"),
            ("object_type", .str "PHYSICALCONNECTION")])]
        []).active_power_issues :=
  (add_or_update_nonmatching_unchanged
    ⟨[(.str "A1", [("alarm_id", .str "A1"), ("alarm_name", .str "Power Issue"),
        ("object_type", .str "PHYSICALCONNECTION")])], []⟩
    _
    [("alarm_id", .str "A1"), ("alarm_name", .str "Loss of signal - OCH"),
      ("severity", .str "MAJOR")]
    rfl).1 rfl

/-! ## Claim C10 — upsert requires `alarm_id` -/

/-- C10: `alarm["alarm_id"]` raises a `KeyError` exactly when the key is
missing (the lookup precedes both category inserts, so nothing is mutated);
with the key present the error branch is unreachable and missing
`alarm_name` / `severity` / `object_type` are tolerated via `.get`. -/
theorem add_or_update_alarm_id_required (c : AlarmCache) (alarm : PyDict) :
    (dGet alarm "alarm_id" = Option.none → c.add_or_update alarm = .error ()) ∧
      (∀ v, dGet alarm "alarm_id" = some v → ∃ c1, c.add_or_update alarm = .ok c1) := by
  constructor
  · intro h
    rw [AlarmCache.add_or_update, h]
  · intro v h
    rw [AlarmCache.add_or_update, h]
    exact ⟨_, rfl⟩

/-- C10 witness: a record with only a severity key (no `alarm_id`) errors and
a record with a bare `alarm_id` (every other field missing) succeeds. -/
theorem add_or_update_alarm_id_required_witness :
    AlarmCache.add_or_update ⟨[], []⟩ [("severity", .str "MAJOR")] = .error () ∧
      ∃ c1, AlarmCache.add_or_update ⟨[], []⟩ [("alarm_id", .str "A1")] = .ok c1 :=
  ⟨(add_or_update_alarm_id_required ⟨[], []⟩ [("severity", .str "MAJOR")]).1 rfl,
    (add_or_update_alarm_id_required ⟨[], []⟩ [("alarm_id", .str "A1")]).2 _ rfl⟩

/-! ## Lifecycle handler reduction lemmas -/

/-- The handler reduces to the clear branch for truthy-id CLEAR changes. -/
theorem handle_clear_eq (env : LcEnv) (alarm : PyDict) (s : SysState)
    (h1 : pyGet alarm "event_type" = .str "alarm-change")
    (h2 : pyGet alarm "severity" = .str "CLEAR")
    (h3 : pyTruthy (pyGet alarm "alarm_id") = true) :
    handle_alarm_lifecycle env alarm s = clearBranch env (pyGet alarm "alarm_id") s := by
  simp [handle_alarm_lifecycle, h1, h2, h3,
    show pyTruthy (.str "alarm-change") = true from rfl]

/-- The handler reduces to the upsert branch for truthy-id create or
non-CLEAR change events carrying truthy `alarm_name` and `ne_name`. -/
theorem handle_upsert_eq (env : LcEnv) (alarm : PyDict) (s : SysState)
    (het : pyGet alarm "event_type" = .str "alarm-create" ∨
      (pyGet alarm "event_type" = .str "alarm-change" ∧
        pyGet alarm "severity" ≠ .str "CLEAR"))
    (hid : pyTruthy (pyGet alarm "alarm_id") = true)
    (hnm : pyTruthy (pyGet alarm "alarm_name") = true)
    (hne : pyTruthy (pyGet alarm "ne_name") = true) :
    handle_alarm_lifecycle env alarm s =
      upsertBranch env alarm (pyGet alarm "alarm_id") s := by
  rcases het with h | ⟨h, hsev⟩
  · simp [handle_alarm_lifecycle, h, hid, hnm, hne,
      show pyTruthy (.str "alarm-create") = true from rfl]
  · simp [handle_alarm_lifecycle, h, hsev, hid, hnm, hne,
      show pyTruthy (.str "alarm-change") = true from rfl]

/-- Events with a falsy `alarm_id` or `event_type` are dropped unchanged. -/
theorem handle_missing_id_or_type (env : LcEnv) (alarm : PyDict) (s : SysState)
    (h : pyTruthy (pyGet alarm "alarm_id") = false ∨
      pyTruthy (pyGet alarm "event_type") = false) :
    handle_alarm_lifecycle env alarm s = ⟨true, s, []⟩ := by
  rcases h with h | h <;> simp [handle_alarm_lifecycle, h]

/-- In every branch of `clearBranch` the final cache is the evicted one. -/
theorem clearBranch_cache (env : LcEnv) (alarm_id : PyVal) (s : SysState) :
    (clearBranch env alarm_id s).state.cache = s.cache.remove alarm_id := by
  simp only [clearBranch]
  repeat' split
  all_goals rfl

/-! ## Claim C2 — clear evicts the cache before the store delete -/

/-- C2: for every CLEAR change event with truthy `alarm_id`, under every
failure environment and every starting state, the first two calls issued are
the cache eviction and then the durable delete — the eviction strictly
precedes the delete. -/
theorem clear_evicts_cache_before_store_delete (env : LcEnv) (alarm : PyDict)
    (s : SysState)
    (h1 : pyGet alarm "event_type" = .str "alarm-change")
    (h2 : pyGet alarm "severity" = .str "CLEAR")
    (h3 : pyTruthy (pyGet alarm "alarm_id") = true) :
    (handle_alarm_lifecycle env alarm s).trace.take 2 =
      [LcOp.cacheRemove (pyGet alarm "alarm_id"),
        LcOp.dbDeleteActive (pyGet alarm "alarm_id")] := by
  rw [handle_clear_eq env alarm s h1 h2 h3]
  simp only [clearBranch]
  repeat' split
  all_goals rfl

/-- C2 witness: a concrete CLEAR change over a store holding the alarm. -/
theorem clear_evicts_cache_before_store_delete_witness :
    (handle_alarm_lifecycle ⟨false, false, false⟩
        [("alarm_id", .str "A1"), ("event_type", .str "alarm-change"),
          ("severity", .str "CLEAR")]
        ⟨⟨[(.str "A1", .dict [("alarm_id", .str "A1")])], []⟩, ⟨[], []⟩⟩).trace.take 2 =
      [LcOp.cacheRemove (.str "A1"), LcOp.dbDeleteActive (.str "A1")] :=
  clear_evicts_cache_before_store_delete _ _ _ rfl rfl rfl

/-! ## Claim C3 — cache upsert only after confirmed store write -/

/-- C3: for create and non-CLEAR change events (required fields truthy), the
trace puts the store upsert strictly before the cache upsert, and a store
failure aborts with both the store and the cache exactly as before — the
cache is never mutated when the durable unit fails; for CLEAR events a
failing durable unit still leaves the already-issued cache eviction in place
(not rolled back). -/
theorem create_change_cache_upsert_after_store :
    (∀ (env : LcEnv) (alarm : PyDict) (s : SysState),
      (pyGet alarm "event_type" = .str "alarm-create" ∨
        (pyGet alarm "event_type" = .str "alarm-change" ∧
          pyGet alarm "severity" ≠ .str "CLEAR")) →
      pyTruthy (pyGet alarm "alarm_id") = true →
      pyTruthy (pyGet alarm "alarm_name") = true →
      pyTruthy (pyGet alarm "ne_name") = true →
      ((handle_alarm_lifecycle env alarm s).ok = false →
        (handle_alarm_lifecycle env alarm s).state = s) ∧
        (handle_alarm_lifecycle env alarm s).trace =
          (if env.upsertFails then [LcOp.dbUpsertActive (pyGet alarm "alarm_id") alarm]
            else [LcOp.dbUpsertActive (pyGet alarm "alarm_id") alarm,
              LcOp.cacheUpsert alarm])) ∧
      (∀ (env : LcEnv) (alarm : PyDict) (s : SysState),
        pyGet alarm "event_type" = .str "alarm-change" →
        pyGet alarm "severity" = .str "CLEAR" →
        pyTruthy (pyGet alarm "alarm_id") = true →
        (handle_alarm_lifecycle env alarm s).ok = false →
        (handle_alarm_lifecycle env alarm s).state.cache =
          s.cache.remove (pyGet alarm "alarm_id")) := by
  constructor
  · intro env alarm s het hid hnm hne
    rw [handle_upsert_eq env alarm s het hid hnm hne]
    obtain ⟨c1, hc1⟩ := add_or_update_ok_of_truthy (c := s.cache) hid
    by_cases hf : env.upsertFails = true
    · simp [upsertBranch, hf]
    · simp only [Bool.not_eq_true] at hf
      simp [upsertBranch, hf, hc1]
  · intro env alarm s h1 h2 h3 _
    rw [handle_clear_eq env alarm s h1 h2 h3]
    exact clearBranch_cache env _ s

/-- C3 witness: a concrete create event under a failing store upsert leaves
the whole state untouched. -/
theorem create_change_cache_upsert_after_store_witness :
    (handle_alarm_lifecycle ⟨false, false, true⟩
        [("alarm_id", .str "A1"), ("event_type", .str "alarm-create"),
          ("alarm_name", .str "Power Issue"), ("ne_name", .str "NE1"),
          ("object_type", .str "PHYSICALCONNECTION"), ("severity", .str "MAJOR")]
        ⟨⟨[], []⟩, ⟨[], []⟩⟩).state = ⟨⟨[], []⟩, ⟨[], []⟩⟩ :=
  (create_change_cache_upsert_after_store.1 ⟨false, false, true⟩
    [("alarm_id", .str "A1"), ("event_type", .str "alarm-create"),
      ("alarm_name", .str "Power Issue"), ("ne_name", .str "NE1"),
      ("object_type", .str "PHYSICALCONNECTION"), ("severity", .str "MAJOR")]
    ⟨⟨[], []⟩, ⟨[], []⟩⟩ (Or.inl rfl) rfl rfl rfl).1 rfl

/-! ## Claim C5 — history append on clear -/

/-- C5 counterexample: the guard is `if row and row[0]`, not `if row`. A
clear for an alarm whose stored payload is the empty JSON object (falsy in
Python) makes the delete return that prior payload, yet zero history rows are
appended — the claim demands exactly one. -/
theorem clear_history_append_cx :
    plookup [((.str "A1" : PyVal), (.dict [] : PyVal))] (.str "A1") = some (.dict []) ∧
      (handle_alarm_lifecycle ⟨false, false, false⟩
          [("alarm_id", .str "A1"), ("event_type", .str "alarm-change"),
            ("severity", .str "CLEAR")]
          ⟨⟨[(.str "A1", .dict [])], []⟩, ⟨[], []⟩⟩).state.store.history = [] :=
  ⟨rfl, rfl⟩

/-- C5 (amended): for every CLEAR change event processed without store
failure: if the delete returns a prior payload that is truthy (non-null and
nonempty — always the case for rows written by this handler), exactly one
history row carrying that payload is appended; if it returns no row, or a row
with a falsy payload, zero history rows are appended. -/
theorem clear_history_append_iff_truthy_payload (env : LcEnv) (alarm : PyDict)
    (s : SysState)
    (h1 : pyGet alarm "event_type" = .str "alarm-change")
    (h2 : pyGet alarm "severity" = .str "CLEAR")
    (h3 : pyTruthy (pyGet alarm "alarm_id") = true)
    (h4 : env.deleteFails = false)
    (h5 : env.historyFails = false) :
    (∀ p, plookup s.store.active (pyGet alarm "alarm_id") = some p →
      pyTruthy p = true →
      (handle_alarm_lifecycle env alarm s).state.store.history =
        s.store.history ++ [(pyGet alarm "alarm_id", p)]) ∧
      (∀ p, plookup s.store.active (pyGet alarm "alarm_id") = some p →
        pyTruthy p = false →
        (handle_alarm_lifecycle env alarm s).state.store.history = s.store.history) ∧
      (plookup s.store.active (pyGet alarm "alarm_id") = Option.none →
        (handle_alarm_lifecycle env alarm s).state.store.history = s.store.history) := by
  rw [handle_clear_eq env alarm s h1 h2 h3]
  refine ⟨?_, ?_, ?_⟩
  · intro p hp htr
    simp [clearBranch, h4, h5, hp, htr]
  · intro p hp htr
    simp [clearBranch, h4, h5, hp, htr]
  · intro hp
    simp [clearBranch, h4, h5, hp]

/-- C5 witness: clearing an alarm stored with a nonempty payload appends
exactly that one history row. -/
theorem clear_history_append_iff_truthy_payload_witness :
    (handle_alarm_lifecycle ⟨false, false, false⟩
        [("alarm_id", .str "A1"), ("event_type", .str "alarm-change"),
          ("severity", .str "CLEAR")]
        ⟨⟨[(.str "A1", .dict [("alarm_id", .str "A1")])], []⟩, ⟨[], []⟩⟩
      ).state.store.history = [] ++ [(.str "A1", .dict [("alarm_id", .str "A1")])] :=
  (clear_history_append_iff_truthy_payload ⟨false, false, false⟩
    [("alarm_id", .str "A1"), ("event_type", .str "alarm-change"),
      ("severity", .str "CLEAR")]
    ⟨⟨[(.str "A1", .dict [("alarm_id", .str "A1")])], []⟩, ⟨[], []⟩⟩
    rfl rfl rfl rfl rfl).1 (.dict [("alarm_id", .str "A1")]) rfl rfl

/-! ## Claim C6 — delete events have no effect -/

/-- C6: every event whose `event_type` is `alarm-delete` returns normally
with an empty trace (zero store calls, zero cache calls) and the state
exactly unchanged. -/
theorem delete_events_have_no_effect (env : LcEnv) (alarm : PyDict) (s : SysState)
    (h : pyGet alarm "event_type" = .str "alarm-delete") :
    handle_alarm_lifecycle env alarm s = ⟨true, s, []⟩ := by
  by_cases hid : pyTruthy (pyGet alarm "alarm_id") = true
  · simp [handle_alarm_lifecycle, h, hid,
      show pyTruthy (.str "alarm-delete") = true from rfl]
  · simp only [Bool.not_eq_true] at hid
    exact handle_missing_id_or_type env alarm s (Or.inl hid)

/-- C6 witness: a concrete delete event over a populated state. -/
theorem delete_events_have_no_effect_witness :
    handle_alarm_lifecycle ⟨false, false, false⟩
        [("alarm_id", .str "A1"), ("event_type", .str "alarm-delete")]
        ⟨⟨[(.str "A1", .dict [("alarm_id", .str "A1")])], []⟩, ⟨[], []⟩⟩ =
      ⟨true, ⟨⟨[(.str "A1", .dict [("alarm_id", .str "A1")])], []⟩, ⟨[], []⟩⟩, []⟩ :=
  delete_events_have_no_effect _ _ _ rfl

/-! ## Claim C7 — malformed input is silently dropped -/

/-- C7 counterexample: an envelope whose `data` member is a string — an
envelope without a well-formed alarm payload — makes `normalize_alarm` raise
an `AttributeError` (`'str' object has no attribute 'get'`) instead of
returning normally with no record, for every choice of the collaborator
functions (here a concrete trivial one). -/
theorem malformed_envelope_raises_cx :
    normalize_alarm ⟨fun _ _ => .none, fun _ => false, fun _ => .none⟩
        (.dict [("data", .str "x")]) ⟨[], []⟩ = .error () :=
  rfl

/-- C7 (amended): handler-side malformed events — falsy/missing `alarm_id`
or `event_type`, and create or non-CLEAR change events with falsy/missing
`alarm_name` or `ne_name` — return normally with zero store calls, zero
cache calls and the state unchanged; normalizer-side, an envelope whose
`data` and notification members are dicts (or absent) but which carries no
well-formed `nsp-fault:` alarm payload yields no record and no failure.
(An envelope with a non-dict `data` or notification member instead raises —
see the counterexample.) -/
theorem malformed_input_dropped_without_mutation :
    (∀ (env : LcEnv) (alarm : PyDict) (s : SysState),
      (pyTruthy (pyGet alarm "alarm_id") = false ∨
        pyTruthy (pyGet alarm "event_type") = false) →
      handle_alarm_lifecycle env alarm s = ⟨true, s, []⟩) ∧
      (∀ (env : LcEnv) (alarm : PyDict) (s : SysState),
        (pyGet alarm "event_type" = .str "alarm-create" ∨
          (pyGet alarm "event_type" = .str "alarm-change" ∧
            pyGet alarm "severity" ≠ .str "CLEAR")) →
        (pyTruthy (pyGet alarm "alarm_name") = false ∨
          pyTruthy (pyGet alarm "ne_name") = false) →
        handle_alarm_lifecycle env alarm s = ⟨true, s, []⟩) ∧
      (∀ (fns : Collab) (event : PyVal) (cache : AlarmCache)
        (notif : List (String × PyVal)),
        envNotifItems event = .ok notif →
        wellFormedFault notif = Option.none →
        normalize_alarm fns event cache = .ok Option.none) := by
  refine ⟨handle_missing_id_or_type, ?_, ?_⟩
  · intro env alarm s het hguard
    by_cases hid : pyTruthy (pyGet alarm "alarm_id") = true
    · rcases het with h | ⟨h, hsev⟩
      · rcases hguard with hg | hg <;>
          simp [handle_alarm_lifecycle, h, hid, hg,
            show pyTruthy (.str "alarm-create") = true from rfl]
      · rcases hguard with hg | hg <;>
          · simp [handle_alarm_lifecycle, h, hid, hg,
              show pyTruthy (.str "alarm-change") = true from rfl]
            exact fun hc => absurd hc hsev
    · simp only [Bool.not_eq_true] at hid
      exact handle_missing_id_or_type env alarm s (Or.inl hid)
  · intro fns event cache notif henv hwf
    simp [normalize_alarm, henv, hwf, Except.bind, Bind.bind, pure, Pure.pure,
      Except.pure]

/-- C7 witness: a create event with no `alarm_id`, and a dict-shaped
envelope whose notification carries no `nsp-fault:` key. -/
theorem malformed_input_dropped_without_mutation_witness :
    handle_alarm_lifecycle ⟨false, false, false⟩ [("event_type", .str "alarm-create")]
        ⟨⟨[], []⟩, ⟨[], []⟩⟩ = ⟨true, ⟨⟨[], []⟩, ⟨[], []⟩⟩, []⟩ ∧
      normalize_alarm ⟨fun _ _ => .none, fun _ => false, fun _ => .none⟩
        (.dict [("data", .dict [("ietf-restconf:notification",
          .dict [("eventTime", .str "t")])])]) ⟨[], []⟩ = .ok Option.none :=
  ⟨malformed_input_dropped_without_mutation.1 ⟨false, false, false⟩
      [("event_type", .str "alarm-create")] ⟨⟨[], []⟩, ⟨[], []⟩⟩ (Or.inl rfl),
    malformed_input_dropped_without_mutation.2.2
      ⟨fun _ _ => .none, fun _ => false, fun _ => .none⟩
      (.dict [("data", .dict [("ietf-restconf:notification",
        .dict [("eventTime", .str "t")])])]) ⟨[], []⟩
      [("eventTime", .str "t")] rfl rfl⟩

/-! ## Claim C8 — timestamp normalization edge cases -/

/-- C8 counterexample: a dict lacking all of `value` / `milliseconds` /
`seconds` does not normalize to null: `ts.get("seconds", 0) * 1000` defaults
the whole `or`-chain to `0`, so the converters return the epoch-zero ISO
string instead of `None`. -/
theorem timestamp_empty_dict_cx :
    epoch_ms_to_utc (.dict []) = .ok (some "1970-01-01T00:00:00Z") ∧
      epoch_ms_to_utc (.dict []) ≠ .ok Option.none :=
  ⟨rfl, by decide⟩

/-- C8 (amended): the integer `1700000000000` and the string
`"1700000000000"` normalize to identical outputs under both converters;
every non-numeric string normalizes to null without raising; but a dict
lacking all of `value` / `milliseconds` / `seconds` normalizes as epoch 0 —
`1970-01-01T00:00:00Z` / `1970-01-01T06:00:00+06:00` — without raising,
not to null. -/
theorem timestamp_normalization_cases :
    epoch_ms_to_utc (.int 1700000000000) = epoch_ms_to_utc (.str "1700000000000") ∧
      utc_ms_to_local_iso (.int 1700000000000) =
        utc_ms_to_local_iso (.str "1700000000000") ∧
      (∀ s1 : String, pyIsDigit s1 = false →
        epoch_ms_to_utc (.str s1) = .ok Option.none ∧
          utc_ms_to_local_iso (.str s1) = .ok Option.none) ∧
      (∀ d : PyDict, dGet d "value" = Option.none →
        dGet d "milliseconds" = Option.none →
        dGet d "seconds" = Option.none →
        epoch_ms_to_utc (.dict d) = .ok (some "1970-01-01T00:00:00Z") ∧
          utc_ms_to_local_iso (.dict d) = .ok (some "1970-01-01T06:00:00+06:00")) := by
  refine ⟨rfl, rfl, ?_, ?_⟩
  · intro s1 h
    constructor <;>
      simp [epoch_ms_to_utc, utc_ms_to_local_iso, tsNormalize, tsFinish, h,
        Except.map]
  · intro d h1 h2 h3
    have hd : tsFromDict d = .ok (.int 0) := by
      simp [tsFromDict, pyGet, dGetD, h1, h2, h3, pyTruthy, pyMul1000]
    constructor <;>
      · simp [epoch_ms_to_utc, utc_ms_to_local_iso, tsNormalize, hd, Except.map]
        rfl

/-- C8 witness: the non-numeric string `"12a"` and the empty dict. -/
theorem timestamp_normalization_cases_witness :
    epoch_ms_to_utc (.str "12a") = .ok Option.none ∧
      utc_ms_to_local_iso (.dict []) = .ok (some "1970-01-01T06:00:00+06:00") :=
  ⟨(timestamp_normalization_cases.2.2.1 "12a" rfl).1,
    (timestamp_normalization_cases.2.2.2 [] rfl rfl rfl).2⟩

end NokiaAlarms
